import Mathlib

/-!
Verification development for the SWRKit request/response orchestration core:
the cache-key builder, the fetcher pipeline (`createFetcher` in `src/utils.ts`),
configuration merging (`mergeConfigs`), the provider's authentication request
transform, and the mutation trigger wrapper (`src/swrkit.ts`).

JavaScript runtime values are modelled by the inductive `JSValue`; `undefined`
and `null` are distinct constructors, and object property maps are association
lists with exact string keys (JavaScript objects have unique keys). Helpers
re-exported from the external `@mshindi-labs/refetch` package, which is not
part of this repository, are modelled from the specification and marked as
such in their doc comments.
-/

/-- Model of a JavaScript runtime value, sufficient for the data flowing
through the cache-key builder, config merging and error extraction. Numbers
are modelled as integers (the repository only manipulates numeric params and
status codes). -/
inductive JSValue where
  | null : JSValue
  | undefined : JSValue
  | bool : Bool → JSValue
  | num : Int → JSValue
  | str : String → JSValue
  | arr : List JSValue → JSValue
  | obj : List (String × JSValue) → JSValue

/-- JavaScript truthiness: `null`, `undefined`, `false`, `0` and the empty
string are falsy; every object and array is truthy. -/
def jsTruthy : JSValue → Bool
  | .null => false
  | .undefined => false
  | .bool b => b
  | .num n => n != 0
  | .str s => s ≠ ""
  | .arr _ => true
  | .obj _ => true

/-- Exact-key property lookup on an association-list object, the model of
JavaScript `o[k]` / `k in o` for string keys. -/
def lookupKey {β : Type} (k : String) : List (String × β) → Option β
  | [] => none
  | (a, b) :: rest => if a = k then some b else lookupKey k rest

/-- Overwrite-or-append property assignment on an association-list object,
the model of JavaScript `o[k] = v` (keeps the first occurrence's position,
appends a new key at the end). -/
def setKey {β : Type} (r : List (String × β)) (k : String) (v : β) :
    List (String × β) :=
  if (lookupKey k r).isSome then
    r.map (fun kv => if kv.1 = k then (k, v) else kv)
  else r ++ [(k, v)]

/-- JSON string escaping for the two characters `JSON.stringify` must always
escape in this model. -/
def jsonEscapeChar (c : Char) : String :=
  if c = '"' then "\\\"" else if c = '\\' then "\\\\" else String.singleton c

/-- `JSON.stringify` of a string: wrap in double quotes, escaping. -/
def jsonQuote (s : String) : String :=
  "\"" ++ String.join (s.data.map jsonEscapeChar) ++ "\""

mutual

/-- Model of `JSON.stringify`: returns `none` exactly when JavaScript returns
`undefined` (stringifying `undefined` itself). -/
def jsonStringify : JSValue → Option String
  | .undefined => none
  | .null => some "null"
  | .bool b => some (if b then "true" else "false")
  | .num n => some (toString n)
  | .str s => some (jsonQuote s)
  | .arr xs => some ("[" ++ jsonArrayElems xs ++ "]")
  | .obj fs => some ("\x7b" ++ String.intercalate "," (jsonObjFields fs) ++ "\x7d")

/-- Array elements of `JSON.stringify`: `undefined` entries render as `null`. -/
def jsonArrayElems : List JSValue → String
  | [] => ""
  | [x] => (jsonStringify x).getD "null"
  | x :: rest => (jsonStringify x).getD "null" ++ "," ++ jsonArrayElems rest

/-- Object fields of `JSON.stringify`: properties whose value stringifies to
`undefined` are skipped. -/
def jsonObjFields : List (String × JSValue) → List String
  | [] => []
  | (k, v) :: rest =>
    match jsonStringify v with
    | some s => (jsonQuote k ++ ":" ++ s) :: jsonObjFields rest
    | none => jsonObjFields rest

end

mutual

/-- Model of JavaScript `String(x)` coercion. -/
def jsToString : JSValue → String
  | .null => "null"
  | .undefined => "undefined"
  | .bool b => if b then "true" else "false"
  | .num n => toString n
  | .str s => s
  | .arr xs => jsArrayJoin xs
  | .obj _ => "[object Object]"

/-- `Array.prototype.toString` = `join(",")`, where `null` and `undefined`
elements render as the empty string. -/
def jsArrayJoin : List JSValue → String
  | [] => ""
  | [x] => jsArrayElemString x
  | x :: rest => jsArrayElemString x ++ "," ++ jsArrayJoin rest

/-- One element of an array `join`. -/
def jsArrayElemString : JSValue → String
  | .null => ""
  | .undefined => ""
  | .bool b => if b then "true" else "false"
  | .num n => toString n
  | .str s => s
  | .arr xs => jsArrayJoin xs
  | .obj _ => "[object Object]"

end

/-- Model of the `CacheKey` union type from `src/types.ts`:
`string | readonly unknown[] | Record<string, any> | null | undefined`. -/
inductive CacheKey where
  | nullKey : CacheKey
  | undef : CacheKey
  | str : String → CacheKey
  | arr : List JSValue → CacheKey
  | obj : List (String × JSValue) → CacheKey

/-- One `k=JSON.stringify(params[k])` query entry of `buildCacheKey`; a value
that stringifies to `undefined` renders as the string `undefined` via the
template literal. -/
def paramEntry (params : List (String × JSValue)) (k : String) : String :=
  k ++ "=" ++ (match lookupKey k params with
    | some v => (jsonStringify v).getD "undefined"
    | none => "undefined")

/-- The parameter names of `buildCacheKey`, sorted lexicographically
(`Object.keys(params).sort()`). -/
def sortedParamKeys (params : List (String × JSValue)) : List String :=
  List.insertionSort (· ≤ ·) (params.map Prod.fst)

/-- Embedding of `buildCacheKey` from `src/utils.ts`: null/undefined keys give
null, arrays and objects pass through unchanged, and a string key with
non-empty params gets `?` plus the sorted serialized entries appended. -/
def buildCacheKey (key : CacheKey) (params : Option (List (String × JSValue))) :
    CacheKey :=
  match key with
  | .nullKey => .nullKey
  | .undef => .nullKey
  | .arr xs => .arr xs
  | .obj fs => .obj fs
  | .str url =>
    match params with
    | some ps =>
      if ps.length > 0 then
        .str (url ++ "?" ++
          String.intercalate "&" ((sortedParamKeys ps).map (paramEntry ps)))
      else .str url
    | none => .str url

/-- Embedding of `extractUrlFromKey` from `src/utils.ts`. The leading
JavaScript `if (!key) return null` guard sends every falsy key — including
the empty string — to `null`; non-empty arrays yield `String` of their first
element; objects yield `String` of their `url` property when present. -/
def extractUrlFromKey : CacheKey → Option String
  | .nullKey => none
  | .undef => none
  | .str s => if s = "" then none else some s
  | .arr xs =>
    match xs with
    | x :: _ => some (jsToString x)
    | [] => none
  | .obj fields =>
    match lookupKey "url" fields with
    | some v => some (jsToString v)
    | none => none

/-- The `PROBLEM_CODE` enumeration of the external `refetch` package, as used
by `src/errors.ts` and the spec's `ProblemKind`. -/
inductive PROBLEM_CODE where
  | NONE : PROBLEM_CODE
  | CLIENT_ERROR : PROBLEM_CODE
  | SERVER_ERROR : PROBLEM_CODE
  | TIMEOUT_ERROR : PROBLEM_CODE
  | CONNECTION_ERROR : PROBLEM_CODE
  | NETWORK_ERROR : PROBLEM_CODE
  | CANCEL_ERROR : PROBLEM_CODE
  | UNKNOWN_ERROR : PROBLEM_CODE
deriving DecidableEq

/-- The cause category an underlying thrown error exposes to classification:
transport-level timeout, abort, connection or network failures, a generic
error, or a re-thrown SWRKit typed error (whose class the external classifier
does not know). -/
inductive ErrKind where
  | timeoutErr : ErrKind
  | abortErr : ErrKind
  | connErr : ErrKind
  | netErr : ErrKind
  | generic : ErrKind
  | swrkitThrown : PROBLEM_CODE → ErrKind
deriving DecidableEq

/-- A thrown JavaScript error value as seen by `catch` blocks: its `name`,
`message` and the cause category relevant to classification. -/
structure ErrVal where
  name : String
  message : String
  kind : ErrKind
deriving DecidableEq

/-- Embedding of the `SWRKitResponse<T>` shape from `src/types.ts`; optional
fields model `undefined`. -/
structure SWRKitResponse where
  ok : Bool
  problem : Option PROBLEM_CODE
  originalError : Option ErrVal
  data : Option JSValue
  status : Option Nat
  headers : Option (List (String × String))
  duration : Option Nat

/-- Modelled from the spec: `classifyProblem(status, cause?)` is imported from
the external `@mshindi-labs/refetch` package and is not under `src/`. Per
§4.2: with a status, 4xx is CLIENT_ERROR, 5xx is SERVER_ERROR, anything else
UNKNOWN; without a status, the cause's category selects TIMEOUT / CANCEL /
CONNECTION / NETWORK, defaulting to UNKNOWN (a re-thrown SWRKit error is not
a cause the external classifier recognizes). -/
def classifyProblem (status : Option Nat) (cause : Option ErrVal) :
    PROBLEM_CODE :=
  match status with
  | some s =>
    if 400 ≤ s ∧ s < 500 then .CLIENT_ERROR
    else if 500 ≤ s ∧ s < 600 then .SERVER_ERROR
    else .UNKNOWN_ERROR
  | none =>
    match cause with
    | some e =>
      match e.kind with
      | .timeoutErr => .TIMEOUT_ERROR
      | .abortErr => .CANCEL_ERROR
      | .connErr => .CONNECTION_ERROR
      | .netErr => .NETWORK_ERROR
      | _ => .UNKNOWN_ERROR
    | none => .UNKNOWN_ERROR

/-- Embedding of `normalizeResponse` from `src/utils.ts`: `response.ok` (the
fetch API's status in [200,300)) decides the branch; the parsed body is kept
on both branches, and the non-ok branch synthesizes an `HTTP Error` message
and classifies by status. -/
def normalizeResponse (data : JSValue) (status : Nat) (statusText : String)
    (headers : List (String × String)) (duration : Nat) : SWRKitResponse :=
  if 200 ≤ status ∧ status < 300 then
    { ok := true, problem := none, originalError := none, data := some data,
      status := some status, headers := some headers, duration := some duration }
  else
    { ok := false, problem := some (classifyProblem (some status) none),
      originalError := some
        { name := "Error",
          message := "HTTP Error " ++ toString status ++ ": " ++ statusText,
          kind := .generic },
      data := some data, status := some status, headers := some headers,
      duration := some duration }

/-- Raw transport response information available to `normalizeErrorResponse`
when a `Response` object accompanies the error. -/
structure RawResponseInfo where
  status : Nat
  headers : List (String × String)
deriving DecidableEq

/-- Embedding of `normalizeErrorResponse` from `src/utils.ts`: always
`ok=false` with `data: undefined`, status and headers taken from the optional
transport response, classification from `(status, error)`. -/
def normalizeErrorResponse (error : ErrVal) (response : Option RawResponseInfo)
    (duration : Option Nat) : SWRKitResponse :=
  { ok := false,
    problem := some (classifyProblem (response.map (·.status)) (some error)),
    originalError := some error,
    data := none,
    status := response.map (·.status),
    headers := response.map (·.headers),
    duration := duration }

/-- Embedding of the `SWRKitError` class hierarchy of `src/errors.ts`: one
record carrying the subclass name, message, problem code, the attached
response, and `status = response?.status`. -/
structure SWRKitError where
  name : String
  message : String
  problem : PROBLEM_CODE
  response : Option SWRKitResponse
  status : Option Nat

/-- Render a possibly-undefined status into a template literal, as in
`Request failed with status ${response.status}`. -/
def statusTemplate : Option Nat → String
  | some n => toString n
  | none => "undefined"

/-- Embedding of `createErrorFromResponse` from `src/errors.ts`: the message
is `response.originalError?.message || "Request failed with status N"` (an
empty message is falsy), and the problem code picks the subclass, defaulting
to the base `SWRKitError` with `UNKNOWN_ERROR`. -/
def createErrorFromResponse (response : SWRKitResponse) : SWRKitError :=
  let message :=
    match response.originalError with
    | some e => if e.message = "" then
        "Request failed with status " ++ statusTemplate response.status
      else e.message
    | none => "Request failed with status " ++ statusTemplate response.status
  match response.problem with
  | some .CLIENT_ERROR =>
    { name := "SWRKitClientError", message := message, problem := .CLIENT_ERROR,
      response := some response, status := response.status }
  | some .SERVER_ERROR =>
    { name := "SWRKitServerError", message := message, problem := .SERVER_ERROR,
      response := some response, status := response.status }
  | some .NETWORK_ERROR =>
    { name := "SWRKitNetworkError", message := message, problem := .NETWORK_ERROR,
      response := some response, status := response.status }
  | some .CONNECTION_ERROR =>
    { name := "SWRKitConnectionError", message := message,
      problem := .CONNECTION_ERROR, response := some response,
      status := response.status }
  | some .TIMEOUT_ERROR =>
    { name := "SWRKitTimeoutError", message := message, problem := .TIMEOUT_ERROR,
      response := some response, status := response.status }
  | some .CANCEL_ERROR =>
    { name := "SWRKitCancelError", message := message, problem := .CANCEL_ERROR,
      response := some response, status := response.status }
  | _ =>
    { name := "SWRKitError", message := message, problem := .UNKNOWN_ERROR,
      response := some response, status := response.status }

/-- View of a thrown SWRKit error as the plain error value a `catch` block
receives: the `.response` pointer is not consulted anywhere on the catch path
of the fetcher, only name, message and (unrecognized) class. -/
def errValOfSWRKitError (e : SWRKitError) : ErrVal :=
  { name := e.name, message := e.message, kind := .swrkitThrown e.problem }

/-- A response transform: receives the (mutable, in the source) response and
either completes, yielding the updated response, or throws. -/
def RespTransform : Type := SWRKitResponse → Except ErrVal SWRKitResponse

/-- A request-config transform for the fetcher pipeline; here the config is
abstract because the transport outcome is a model parameter. -/
def ReqTransform : Type := Unit → Except ErrVal Unit

/-- Embedding of `applyResponseTransforms` from `src/utils.ts`: strictly
sequential, each transform awaited before the next, stopping at the first
thrown error. -/
def applyResponseTransforms (response : SWRKitResponse)
    (transforms : List RespTransform) : Except ErrVal SWRKitResponse :=
  match transforms with
  | [] => .ok response
  | t :: rest =>
    match t response with
    | .ok r => applyResponseTransforms r rest
    | .error e => .error e

/-- Embedding of `applyRequestTransforms` from `src/utils.ts`: sequential,
stopping at the first thrown error. -/
def applyRequestTransforms (transforms : List ReqTransform) :
    Except ErrVal Unit :=
  match transforms with
  | [] => .ok ()
  | t :: rest =>
    match t () with
    | .ok _ => applyRequestTransforms rest
    | .error e => .error e

/-- Pipeline steps observable in one fetcher call: one event per source-level
call of `applyResponseTransforms` and of `notifyMonitors`. -/
inductive FetchEvent where
  | respTransformsRun : FetchEvent
  | monitorsRun : FetchEvent
deriving DecidableEq

/-- What the transport layer (`fetchWithTimeout` + `parseResponseBody`, both
external) does for this call: a settled response with a parsed body, or a
thrown transport/parse error. -/
inductive TransportOutcome where
  | response : Nat → String → List (String × String) → JSValue → TransportOutcome
  | thrown : ErrVal → TransportOutcome

/-- What a fetcher call can throw to its caller: a typed `SWRKitError`, or a
raw error that escaped the catch block unclassified. -/
inductive FetchThrown where
  | raw : ErrVal → FetchThrown
  | typed : SWRKitError → FetchThrown

/-- The `catch` block of the fetcher in `src/utils.ts` (lines 258-278): build
a fresh error response with no transport information, re-run response
transforms and monitors when configured, and throw a typed error built from
that fresh response. A transform throwing here escapes raw. -/
def fetcherCatch (caught : ErrVal) (responseTransforms : List RespTransform)
    (monitorCount : Nat) (elapsed : Nat) (eventsSoFar : List FetchEvent) :
    Except FetchThrown SWRKitResponse × List FetchEvent :=
  let resp := normalizeErrorResponse caught none (some elapsed)
  match responseTransforms with
  | [] =>
    let afterMon := if monitorCount > 0 then [FetchEvent.monitorsRun] else []
    (.error (.typed (createErrorFromResponse resp)), eventsSoFar ++ afterMon)
  | _ :: _ =>
    match applyResponseTransforms resp responseTransforms with
    | .error e2 =>
      (.error (.raw e2), eventsSoFar ++ [FetchEvent.respTransformsRun])
    | .ok resp2 =>
      let afterMon := if monitorCount > 0 then [FetchEvent.monitorsRun] else []
      (.error (.typed (createErrorFromResponse resp2)),
        eventsSoFar ++ [FetchEvent.respTransformsRun] ++ afterMon)

/-- Embedding of the fetcher returned by `createFetcher` in `src/utils.ts`
(lines 200-280). The URL building, header merging, body preparation and the
transport call itself are external (`refetch`); their combined behavior for
this call is the `outcome` parameter, and monitors are represented by their
count (they are called for effect only, and exceptions they raise are
swallowed by `notifyMonitors`). The returned trace records each source-level
execution of the response-transform step and the monitor-notification step. -/
def createFetcher (requestTransforms : List ReqTransform)
    (responseTransforms : List RespTransform) (monitorCount : Nat)
    (outcome : TransportOutcome) (elapsed : Nat) :
    Except FetchThrown SWRKitResponse × List FetchEvent :=
  match applyRequestTransforms requestTransforms with
  | .error e => fetcherCatch e responseTransforms monitorCount elapsed []
  | .ok _ =>
    match outcome with
    | .thrown e => fetcherCatch e responseTransforms monitorCount elapsed []
    | .response status statusText headers body =>
      let resp := normalizeResponse body status statusText headers elapsed
      let stepT : Except ErrVal SWRKitResponse × List FetchEvent :=
        match responseTransforms with
        | [] => (.ok resp, [])
        | _ :: _ =>
          (applyResponseTransforms resp responseTransforms,
           [FetchEvent.respTransformsRun])
      match stepT with
      | (.error e, evs) =>
        fetcherCatch e responseTransforms monitorCount elapsed evs
      | (.ok resp2, evs) =>
        let evs2 := evs ++ (if monitorCount > 0 then [FetchEvent.monitorsRun] else [])
        if resp2.ok then (.ok resp2, evs2)
        else
          fetcherCatch (errValOfSWRKitError (createErrorFromResponse resp2))
            responseTransforms monitorCount elapsed evs2

/-- The supported `HeadersInit` shapes a request config can carry: a plain
record, an entry array, or a `Headers` instance (which normalizes names to
lower case). -/
inductive HeadersShape where
  | record : List (String × String) → HeadersShape
  | entries : List (String × String) → HeadersShape
  | headersObj : List (String × String) → HeadersShape
deriving DecidableEq

/-- ASCII lower-casing of one character, the model of header-name case
normalization (header names are ASCII). -/
def charLower (c : Char) : Char :=
  if 'A' ≤ c ∧ c ≤ 'Z' then Char.ofNat (c.toNat + 32) else c

/-- ASCII lower-casing of a header name. -/
def lowerStr (s : String) : String := String.mk (s.data.map charLower)

/-- Model of `Headers.prototype.set`: replaces any value stored under the
case-insensitively matching name, else appends the lower-cased name. -/
def headersSet (xs : List (String × String)) (name value : String) :
    List (String × String) :=
  let ln := lowerStr name
  if xs.any (fun kv => lowerStr kv.1 = ln) then
    xs.map (fun kv => if lowerStr kv.1 = ln then (kv.1, value) else kv)
  else xs ++ [(ln, value)]

/-- Embedding of the `SWRKitRequestConfig` fields that `mergeConfigs`,
`createFetcher` and the mutation hooks manipulate. Absent optional fields are
`none`. -/
structure SWRKitRequestConfig where
  url : Option String := none
  method : Option String := none
  params : Option (List (String × JSValue)) := none
  data : Option JSValue := none
  headers : Option HeadersShape := none
  timeout : Option Nat := none

/-- Flatten any `HeadersInit` shape into a plain header record (entry lists
collapse later-duplicate keys, as a `Headers` construction would). -/
def headersShapeToRecord : HeadersShape → List (String × String)
  | .record fields => fields
  | .entries xs => xs.foldl (fun r kv => setKey r kv.1 kv.2) []
  | .headersObj xs => xs

/-- Modelled from the spec: `mergeHeaders(...sources)` is imported from the
external `@mshindi-labs/refetch` package and is not under `src/`. Per §6 and
§4.5 step 4 it merges header sources into one header map, the later source
winning per key. -/
def mergeHeaders (a b : Option HeadersShape) : HeadersShape :=
  let ra := match a with | some h => headersShapeToRecord h | none => []
  let rb := match b with | some h => headersShapeToRecord h | none => []
  .record (rb.foldl (fun r kv => setKey r kv.1 kv.2) ra)

/-- `Object.assign(merged, config)`: every property the source config carries
overwrites the accumulator's, including `headers` and `params` wholesale. -/
def objectAssign (m c : SWRKitRequestConfig) : SWRKitRequestConfig :=
  { url := c.url <|> m.url,
    method := c.method <|> m.method,
    params := c.params <|> m.params,
    data := c.data <|> m.data,
    headers := c.headers <|> m.headers,
    timeout := c.timeout <|> m.timeout }

/-- JavaScript object spread union for params: `{...a, ...b}`. -/
def spreadParams (a b : List (String × JSValue)) : List (String × JSValue) :=
  b.foldl (fun r kv => setKey r kv.1 kv.2) a

/-- Embedding of `mergeConfigs` from `src/utils.ts`: for each config in order,
`Object.assign` first (which already replaces `headers`/`params` wholesale),
then `merged.headers = mergeHeaders(merged.headers, config.headers)` and
`merged.params = {...merged.params, ...config.params}` on the already
overwritten fields. -/
def mergeConfigs (configs : List (Option SWRKitRequestConfig)) :
    SWRKitRequestConfig :=
  configs.foldl
    (fun merged oc =>
      match oc with
      | none => merged
      | some config =>
        let m1 := objectAssign merged config
        let m2 :=
          match config.headers with
          | some h => { m1 with headers := some (mergeHeaders m1.headers (some h)) }
          | none => m1
        match config.params with
        | some p =>
          { m2 with
            params := some (spreadParams ((m2.params).getD []) p) }
        | none => m2)
    {}

/-- The default timeout from `src/constants.ts`. -/
def DEFAULT_TIMEOUT : Nat := 10000

/-- JavaScript `a || b` on a possibly-undefined number: `undefined` and `0`
are falsy. -/
def jsOrNat (a : Option Nat) (b : Nat) : Nat :=
  match a with
  | some n => if n = 0 then b else n
  | none => b

/-- Embedding of the timeout handed to the transport layer by `createFetcher`
(`src/utils.ts` line 228): `config.timeout || defaultTimeout || DEFAULT_TIMEOUT`. -/
def fetchTimeout (config : SWRKitRequestConfig) (defaultTimeout : Option Nat) :
    Nat :=
  jsOrNat config.timeout (jsOrNat defaultTimeout DEFAULT_TIMEOUT)

/-- Embedding of the provider's `authTransform` from `src/provider.tsx`:
given `autoAuth` not disabled, a token getter and a truthy token, compute
`authValue = prefix + " " + token` and add the auth header — via `Headers.set`
for a `Headers` instance, via a case-insensitive existence check for entry
arrays (append only when absent), and via a falsy-guarded exact-key check for
plain records (write only when the property is absent or falsy). Missing
headers start as an empty record. -/
def authTransform (authHeader tokenPref : String) (autoAuth : Bool)
    (token : Option String) (headers0 : Option HeadersShape) :
    Option HeadersShape :=
  if autoAuth = false then headers0
  else
    match token with
    | none => headers0
    | some t =>
      if t = "" then headers0
      else
        let ah := if authHeader = "" then "Authorization" else authHeader
        let tp := if tokenPref = "" then "Bearer" else tokenPref
        let authValue := tp ++ " " ++ t
        let headers := headers0.getD (.record [])
        match headers with
        | .headersObj xs => some (.headersObj (headersSet xs ah authValue))
        | .entries xs =>
          if xs.any (fun kv => lowerStr kv.1 = lowerStr ah) then
            some (.entries xs)
          else some (.entries (xs ++ [(ah, authValue)]))
        | .record fields =>
          match lookupKey ah fields with
          | some v =>
            if v = "" then some (.record (setKey fields ah authValue))
            else some (.record fields)
          | none => some (.record (setKey fields ah authValue))

/-- Embedding of `extractResponseFromError` from `src/utils.ts`:
`error?.response || null` — optional chaining on any input, then JavaScript
truthiness deciding between the field's value and `null`. -/
def extractResponseFromError (error : JSValue) : JSValue :=
  match error with
  | .obj fields =>
    match lookupKey "response" fields with
    | some v => if jsTruthy v then v else .null
    | none => .null
  | _ => .null

/-- Embedding of the `wrappedTrigger` of `useMutation` in `src/swrkit.ts`
(lines 309-348). The fetcher is the context fetcher viewed at this layer as a
function from the merged config to either a response or a thrown
`SWRKitError`; the non-override branch goes through the external
`useSWRMutation` machinery and is a model parameter here. The override branch
is embedded exactly: merge `{url, method, data: variables}` with the base
request config and the override, call the fetcher, and return its result with
no try/catch around it. -/
def wrappedTrigger
    (fetcher : SWRKitRequestConfig → Except SWRKitError SWRKitResponse)
    (url method : Option String) (requestConfig : Option SWRKitRequestConfig)
    (swrPath : Except SWRKitError SWRKitResponse) (vars : JSValue)
    (overrideConfig : Option SWRKitRequestConfig) :
    Except SWRKitError SWRKitResponse :=
  match overrideConfig with
  | some oc =>
    fetcher (mergeConfigs
      [some { url := url, method := method, data := some vars },
       requestConfig, some oc])
  | none => swrPath

/-- Completion events of the `useMutation` success handler. -/
inductive MutEvent where
  | invalidate : String → MutEvent
  | userOnSuccess : MutEvent
deriving DecidableEq

/-- Embedding of the `onSuccess` handler `useMutation` installs in
`src/swrkit.ts` (lines 285-295): when `invalidateKeys` is non-empty, await
`Promise.all` of one `globalMutate` per key (all of them settle before the
`await` resolves), then, when a user callback is configured, await it. The
trace lists completion events in program order. -/
def onSuccessHandlerTrace (invalidateKeys : List String)
    (hasOnSuccess : Bool) : List MutEvent :=
  (if invalidateKeys.length > 0 then invalidateKeys.map MutEvent.invalidate
   else []) ++
  (if hasOnSuccess then [MutEvent.userOnSuccess] else [])

/-! ## Claim theorems -/

/-- Projection: the `.response` of the typed error a fetcher call threw. -/
def thrownTypedResponse : Except FetchThrown SWRKitResponse → Option SWRKitResponse
  | .error (.typed e) => e.response
  | _ => none

/-- Projection: the subclass name of the typed error a fetcher call threw. -/
def thrownTypedName : Except FetchThrown SWRKitResponse → Option String
  | .error (.typed e) => some e.name
  | _ => none

/-- A fetcher call (no transforms, no monitors) whose transport settles with a
404 and a parsed JSON error body. -/
def fetch404Run : Except FetchThrown SWRKitResponse × List FetchEvent :=
  createFetcher [] [] 0
    (.response 404 "Not Found" [] (.obj [("error", .str "nf")])) 5

/-- C1: code bug. The spec requires a 404 with a JSON error body to surface a
thrown `TypedError` whose `.response` is
`{ok:false, problem:CLIENT_ERROR, status:404, data:<parsed body>}`. In the
code, the `throw createErrorFromResponse(...)` for a non-2xx status sits
inside the same `try` whose `catch` was written for transport errors, so the
catch re-normalizes with `normalizeErrorResponse(error, undefined, duration)`:
the caller observes a base `SWRKitError` whose response has `data:undefined`,
`status:undefined` and an `UNKNOWN` classification instead. -/
theorem C1_fetcher_404_loses_body_status_and_classification :
    (thrownTypedResponse fetch404Run.1).map
        (fun r => (r.ok, r.data, r.status, r.problem))
      = some (false, none, none, some PROBLEM_CODE.UNKNOWN_ERROR)
    ∧ thrownTypedName fetch404Run.1 = some "SWRKitError" :=
  ⟨rfl, rfl⟩

/-- A response transform that completes without modifying the response. -/
def idRespTransform : RespTransform := fun r => .ok r

/-- A fetcher call with one response transform and one monitor registered,
whose transport settles with a 404 and a parsed JSON error body. -/
def fetch404TracedRun : Except FetchThrown SWRKitResponse × List FetchEvent :=
  createFetcher [] [idRespTransform] 1
    (.response 404 "Not Found" [] (.obj [("error", .str "nf")])) 5

/-- C2: code bug. The spec's §4.5 pipeline runs the response-transform step
and the monitor step exactly once per invocation. On the non-2xx path the
code runs both inside the `try` (on the normalized 404 response) and then the
deliberate `throw` is re-caught by the same call's `catch`, which runs both
again on a freshly synthesized error response: the trace shows each step
executing twice. -/
theorem C2_transform_and_monitor_steps_run_twice_on_http_error :
    fetch404TracedRun.2 =
      [FetchEvent.respTransformsRun, FetchEvent.monitorsRun,
       FetchEvent.respTransformsRun, FetchEvent.monitorsRun] := rfl

/-- The merge of two configs that each set a disjoint header key. -/
def mergedTwoHeaderConfigs : SWRKitRequestConfig :=
  mergeConfigs
    [some { headers := some (.record [("X-A", "1")]) },
     some { headers := some (.record [("X-B", "2")]) }]

/-- C3: code bug. The spec (and the code's own `Merge headers specifically`
comment) require headers and params to be merged as a per-key union across
configs. But `Object.assign(merged, config)` has already replaced
`merged.headers` with `config.headers` before
`mergeHeaders(merged.headers, config.headers)` runs, so that call merges the
later config's headers with themselves: a header key set only by the earlier
config does not survive. -/
theorem C3_earlier_header_key_lost_when_later_config_sets_headers :
    mergedTwoHeaderConfigs.headers = some (.record [("X-B", "2")])
    ∧ (mergedTwoHeaderConfigs.headers.map
        (fun h => lookupKey "X-A" (headersShapeToRecord h))) = some none :=
  ⟨rfl, rfl⟩

/-- C5 counterexample: with `config.timeout = 0` and a factory default of
5000, the transport receives 5000, not 0 — the code computes
`config.timeout || defaultTimeout || DEFAULT_TIMEOUT` with JavaScript `||`,
under which 0 is falsy, so the claim's `??`-style reading fails at 0. -/
theorem C5_timeout_zero_falls_through_counterexample :
    fetchTimeout { timeout := some 0 } (some 5000) = 5000
    ∧ fetchTimeout { timeout := some 0 } (some 5000) ≠ 0 :=
  ⟨rfl, by decide⟩

/-- JavaScript falsiness of a possibly-undefined numeric field: absent or 0. -/
def jsFalsyTimeout (o : Option Nat) : Prop := o = none ∨ o = some 0

/-- C5 amended: the timeout handed to the transport equals `config.timeout`
when it is defined and non-zero; otherwise the factory default when defined
and non-zero; otherwise 10000 — i.e. the `||` chain, under which a timeout of
0 falls through to the next default. -/
theorem C5_fetch_timeout_amended (c : SWRKitRequestConfig) (dt : Option Nat) :
    (∀ n, c.timeout = some n → n ≠ 0 → fetchTimeout c dt = n)
    ∧ (jsFalsyTimeout c.timeout →
        ∀ m, dt = some m → m ≠ 0 → fetchTimeout c dt = m)
    ∧ (jsFalsyTimeout c.timeout → jsFalsyTimeout dt →
        fetchTimeout c dt = DEFAULT_TIMEOUT) := by
  refine ⟨?_, ?_, ?_⟩
  · intro n hn hnz
    simp [fetchTimeout, jsOrNat, hn, hnz]
  · rintro (h | h) m hm hmz <;> simp [fetchTimeout, jsOrNat, h, hm, hmz]
  · rintro (h | h) (h2 | h2) <;> simp [fetchTimeout, jsOrNat, h, h2]

/-- Witness for the amended C5 theorem at `config.timeout = 0`,
default 7000. -/
theorem C5_fetch_timeout_amended_witness :
    fetchTimeout { timeout := some 0 } (some 7000) = 7000 :=
  (C5_fetch_timeout_amended { timeout := some 0 } (some 7000)).2.1
    (Or.inr rfl) 7000 rfl (by decide)

/-- A well-formed failure response attached to a thrown typed error. -/
def cexResp : SWRKitResponse :=
  { ok := false, problem := some .CLIENT_ERROR, originalError := none,
    data := none, status := some 400, headers := none, duration := none }

/-- A typed client error carrying `cexResp`. -/
def cexErr : SWRKitError :=
  { name := "SWRKitClientError", message := "Request failed with status 400",
    problem := .CLIENT_ERROR, response := some cexResp, status := some 400 }

/-- C4 counterexample: on the override path `wrappedTrigger` calls the
fetcher with no `try`/`catch` around it, so when the fetcher throws a
`TypedError` the trigger propagates the throw instead of returning the
`Response` extracted from it — the claim's "returns a Response in both
outcomes" is false. -/
theorem C4_override_failure_propagates_throw_counterexample :
    wrappedTrigger (fun _ => .error cexErr) (some "/m") (some "POST") none
      (.error cexErr) JSValue.null (some {}) = .error cexErr := rfl

/-- C4 amended: on the override path the trigger merges
`{url, method, data: variables}` with the base request config and the
override and calls the fetcher directly, returning the fetcher's `Response`
on success — but on failure the thrown `TypedError` propagates out of the
trigger unchanged (extraction of `.response` from the error happens only on
the non-override path). -/
theorem C4_override_path_amended
    (fetcher : SWRKitRequestConfig → Except SWRKitError SWRKitResponse)
    (url method : Option String) (rc : Option SWRKitRequestConfig)
    (swrPath : Except SWRKitError SWRKitResponse) (v : JSValue)
    (oc : SWRKitRequestConfig) :
    (∀ r, fetcher (mergeConfigs
        [some { url := url, method := method, data := some v }, rc, some oc])
        = .ok r →
      wrappedTrigger fetcher url method rc swrPath v (some oc) = .ok r)
    ∧ (∀ e, fetcher (mergeConfigs
        [some { url := url, method := method, data := some v }, rc, some oc])
        = .error e →
      wrappedTrigger fetcher url method rc swrPath v (some oc) = .error e) := by
  constructor
  · intro r h
    simpa [wrappedTrigger] using h
  · intro e h
    simpa [wrappedTrigger] using h

/-- Witness for the amended C4 theorem: a succeeding fetcher's response is
returned unchanged on the override path. -/
theorem C4_override_path_amended_witness :
    wrappedTrigger (fun _ => .ok cexResp) none none none
      (.error cexErr) JSValue.null (some {}) = .ok cexResp :=
  (C4_override_path_amended (fun _ => .ok cexResp) none none none
    (.error cexErr) JSValue.null {}).1 cexResp rfl

/-- C6 counterexample: when the config's headers are a `Headers` instance
already carrying a value for the auth header, the transform calls
`Headers.set` unconditionally and overwrites it, so the claim's "leaves that
existing value unchanged in every supported headers shape" is false. -/
theorem C6_headers_instance_overwritten_counterexample :
    authTransform "Authorization" "Bearer" true (some "T")
        (some (.headersObj [("authorization", "Bearer OLD")]))
      = some (.headersObj [("authorization", "Bearer T")])
    ∧ authTransform "Authorization" "Bearer" true (some "T")
        (some (.headersObj [("authorization", "Bearer OLD")]))
      ≠ some (.headersObj [("authorization", "Bearer OLD")]) :=
  ⟨rfl, by decide⟩

/-- C6 amended: with a token available, the transform preserves an existing
header for the plain-record shape (exact key, non-empty value) and for the
entry-array shape (case-insensitive key match); but for a `Headers` instance
it always writes `prefix token` via `set`, overwriting any existing value. -/
theorem C6_auth_header_amended (ah tp t : String) (hah : ah ≠ "")
    (htp : tp ≠ "") (ht : t ≠ "") :
    (∀ fields v, lookupKey ah fields = some v → v ≠ "" →
      authTransform ah tp true (some t) (some (.record fields))
        = some (.record fields))
    ∧ (∀ xs, xs.any (fun kv => lowerStr kv.1 = lowerStr ah) = true →
      authTransform ah tp true (some t) (some (.entries xs))
        = some (.entries xs))
    ∧ (∀ xs, authTransform ah tp true (some t) (some (.headersObj xs))
        = some (.headersObj (headersSet xs ah (tp ++ " " ++ t)))) := by
  refine ⟨?_, ?_, ?_⟩
  · intro fields v hv hvne
    simp [authTransform, hah, htp, ht, hv, hvne]
  · intro xs hx
    simp [authTransform, hah, htp, ht, hx]
  · intro xs
    simp [authTransform, hah, htp, ht]

/-- Witness for the amended C6 theorem: a record-shape config with an
existing non-empty Authorization value is left unchanged. -/
theorem C6_auth_header_amended_witness :
    authTransform "Authorization" "Bearer" true (some "T")
        (some (.record [("Authorization", "Bearer OLD")]))
      = some (.record [("Authorization", "Bearer OLD")]) :=
  (C6_auth_header_amended "Authorization" "Bearer" "T" (by decide) (by decide)
    (by decide)).1 [("Authorization", "Bearer OLD")] "Bearer OLD" rfl (by decide)

/-- C8 counterexample: the leading `if (!key) return null` guard of
`extractUrlFromKey` treats the empty string as falsy, so a string key `""`
yields `null`, not the string itself as the claim states. -/
theorem C8_empty_string_key_yields_null_counterexample :
    extractUrlFromKey (.str "") = none
    ∧ extractUrlFromKey (.str "") ≠ some "" :=
  ⟨rfl, by decide⟩

/-- C8 amended: `extractUrl` is total and never raises; a non-empty string
key returns itself while the empty string (falsy) returns `null`; a non-empty
list returns the `String()` form of its first element; a record returns the
`String()` form of its `url` field when that field is present and `null`
otherwise; null, undefined and the empty list return `null`. -/
theorem C8_extract_url_amended :
    (∀ s : String, s ≠ "" → extractUrlFromKey (.str s) = some s)
    ∧ extractUrlFromKey (.str "") = none
    ∧ (∀ x xs, extractUrlFromKey (.arr (x :: xs)) = some (jsToString x))
    ∧ (∀ fields v, lookupKey "url" fields = some v →
        extractUrlFromKey (.obj fields) = some (jsToString v))
    ∧ (∀ fields, lookupKey "url" fields = none →
        extractUrlFromKey (.obj fields) = none)
    ∧ extractUrlFromKey .nullKey = none
    ∧ extractUrlFromKey .undef = none
    ∧ extractUrlFromKey (.arr []) = none := by
  refine ⟨?_, rfl, ?_, ?_, ?_, rfl, rfl, rfl⟩
  · intro s hs
    simp [extractUrlFromKey, hs]
  · intro x xs
    rfl
  · intro fields v hv
    simp [extractUrlFromKey, hv]
  · intro fields hv
    simp [extractUrlFromKey, hv]

/-- Witness for the amended C8 theorem: a non-empty string key returns
itself. -/
theorem C8_extract_url_amended_witness :
    extractUrlFromKey (.str "/users") = some "/users" :=
  C8_extract_url_amended.1 "/users" (by decide)

/-- C10 counterexample: `error?.response || null` sends every falsy
`response` field to `null`, so an error whose `response` field is set to the
non-null value `false` yields `null`, not that value as the claim states. -/
theorem C10_falsy_response_field_yields_null_counterexample :
    extractResponseFromError (.obj [("response", .bool false)]) = .null
    ∧ extractResponseFromError (.obj [("response", .bool false)])
        ≠ .bool false := by
  refine ⟨rfl, fun h => ?_⟩
  exact JSValue.noConfusion h

/-- C10 amended: `extractResponseFromError` is total and never throws; it
returns the input's `response` field when that field is set and truthy, and
`null` in every other case — including a `response` field holding a falsy
non-null value (`false`, `0`, the empty string) and every non-object input. -/
theorem C10_extract_response_amended (e : JSValue) :
    (∀ fields v, e = .obj fields → lookupKey "response" fields = some v →
      jsTruthy v = true → extractResponseFromError e = v)
    ∧ (∀ fields v, e = .obj fields → lookupKey "response" fields = some v →
      jsTruthy v = false → extractResponseFromError e = .null)
    ∧ (∀ fields, e = .obj fields → lookupKey "response" fields = none →
      extractResponseFromError e = .null)
    ∧ ((∀ fields, e ≠ .obj fields) → extractResponseFromError e = .null) := by
  refine ⟨?_, ?_, ?_, ?_⟩
  · intro fields v he hv ht
    subst he
    simp [extractResponseFromError, hv, ht]
  · intro fields v he hv ht
    subst he
    simp [extractResponseFromError, hv, ht]
  · intro fields he hv
    subst he
    simp [extractResponseFromError, hv]
  · intro he
    cases e with
    | obj fields => exact absurd rfl (he fields)
    | null => rfl
    | undefined => rfl
    | bool b => rfl
    | num n => rfl
    | str s => rfl
    | arr xs => rfl

/-- Witness for the amended C10 theorem: a truthy `response` field is
returned. -/
theorem C10_extract_response_amended_witness :
    extractResponseFromError (.obj [("response", .str "resp")]) = .str "resp" :=
  (C10_extract_response_amended (.obj [("response", .str "resp")])).1
    [("response", .str "resp")] (.str "resp") rfl rfl rfl

/-- Exact-key lookup is invariant under permutation of an object's
property list when its keys are distinct (as JavaScript object keys are). -/
theorem lookupKey_eq_of_perm {β : Type} (k : String) :
    ∀ {l1 l2 : List (String × β)}, List.Perm l1 l2 →
      (l1.map Prod.fst).Nodup → lookupKey k l1 = lookupKey k l2 := by
  intro l1 l2 h
  induction h with
  | nil => intro _; rfl
  | cons a h ih =>
    intro hnd
    obtain ⟨a1, a2⟩ := a
    simp only [lookupKey]
    split
    · rfl
    · exact ih (by simpa using hnd.of_cons)
  | swap x y l =>
    intro hnd
    obtain ⟨x1, x2⟩ := x
    obtain ⟨y1, y2⟩ := y
    have hxy : y1 ≠ x1 := by
      simp only [List.map_cons, List.nodup_cons, List.mem_cons, List.mem_map] at hnd
      exact fun he => hnd.1 (Or.inl he)
    simp only [lookupKey]
    by_cases h1 : y1 = k <;> by_cases h2 : x1 = k <;> simp [h1, h2]
    exact absurd (h1.trans h2.symm) hxy
  | trans h1 h2 ih1 ih2 =>
    intro hnd
    exact (ih1 hnd).trans (ih2 (((h1.map Prod.fst).nodup_iff).mp hnd))

/-- Lexicographic sorting maps permuted key lists to the same sorted list
(sorted permutations agree, by antisymmetry of the string order). -/
theorem sortKeys_eq {l1 l2 : List String} (h : List.Perm l1 l2) :
    List.insertionSort (· ≤ ·) l1 = List.insertionSort (· ≤ ·) l2 :=
  List.eq_of_perm_of_sorted
    ((List.perm_insertionSort _ _).trans
      (h.trans (List.perm_insertionSort _ _).symm))
    (List.sorted_insertionSort _ _) (List.sorted_insertionSort _ _)

/-- C7: `buildCacheKey` is deterministic and insertion-order independent on
string keys: parameter mappings with the same key/value pairs (distinct keys,
any order) produce the same canonical key, and a non-empty mapping produces
the path plus `?` plus the entries sorted lexicographically by name, each
serialized as `name=JSON(value)` and joined with `&`. -/
theorem C7_buildCacheKey_deterministic (p : String)
    (m1 m2 : List (String × JSValue)) (hperm : List.Perm m1 m2)
    (hnd : (m1.map Prod.fst).Nodup) :
    buildCacheKey (.str p) (some m1) = buildCacheKey (.str p) (some m2)
    ∧ (m1 ≠ [] →
      buildCacheKey (.str p) (some m1) =
        .str (p ++ "?" ++ String.intercalate "&"
          ((sortedParamKeys m1).map (paramEntry m1)))) := by
  have hlen : m1.length = m2.length := hperm.length_eq
  have hkeys : sortedParamKeys m1 = sortedParamKeys m2 := by
    unfold sortedParamKeys
    exact sortKeys_eq (hperm.map Prod.fst)
  have hfun : paramEntry m1 = paramEntry m2 := by
    funext k
    unfold paramEntry
    rw [lookupKey_eq_of_perm k hperm hnd]
  constructor
  · simp only [buildCacheKey, hlen, hkeys, hfun]
  · intro hne
    have h0 : m1.length > 0 := List.length_pos.mpr hne
    simp only [buildCacheKey, if_pos h0]

/-- Witness for the C7 theorem: `/users` with `{page:1, limit:10}` given in
either insertion order canonicalizes identically. -/
theorem C7_buildCacheKey_deterministic_witness :
    buildCacheKey (.str "/users")
        (some [("page", .num 1), ("limit", .num 10)])
      = buildCacheKey (.str "/users")
        (some [("limit", .num 10), ("page", .num 1)]) :=
  (C7_buildCacheKey_deterministic "/users"
    [("page", .num 1), ("limit", .num 10)]
    [("limit", .num 10), ("page", .num 1)]
    (List.Perm.swap ("limit", JSValue.num 10) ("page", JSValue.num 1) [])
    (by simp)).1

/-- C9: in the mutation success handler, with a non-empty `invalidateKeys`
list and a configured user callback, every per-key invalidation completion
event strictly precedes the user `onSuccess` invocation in the handler's
completion trace — the handler awaits `Promise.all` of the invalidations
before awaiting the callback. -/
theorem C9_invalidations_complete_before_onSuccess (keys : List String)
    (hk : keys ≠ []) (i j : Nat) (k : String)
    (hi : (onSuccessHandlerTrace keys true)[i]? = some (MutEvent.invalidate k))
    (hj : (onSuccessHandlerTrace keys true)[j]? = some MutEvent.userOnSuccess) :
    i < j := by
  have h0 : keys.length > 0 := List.length_pos.mpr hk
  have htr : onSuccessHandlerTrace keys true
      = keys.map MutEvent.invalidate ++ [MutEvent.userOnSuccess] := by
    simp [onSuccessHandlerTrace, h0]
  rw [htr] at hi hj
  have hiL : i < keys.length := by
    by_contra hge
    push_neg at hge
    rw [List.getElem?_append_right (by simpa using hge)] at hi
    rcases hd : i - (keys.map MutEvent.invalidate).length with _ | n
    · rw [hd] at hi
      simp at hi
    · rw [hd] at hi
      simp at hi
  have hjL : keys.length ≤ j := by
    by_contra hlt
    push_neg at hlt
    rw [List.getElem?_append_left (by simpa using hlt)] at hj
    rw [List.getElem?_map] at hj
    rcases he : keys[j]? with _ | v
    · rw [he] at hj
      simp at hj
    · rw [he] at hj
      simp at hj
  omega

/-- Witness for the C9 theorem on `invalidateKeys = [/a, /b]`: the handler
trace invalidates both keys at positions 0 and 1 and runs the callback at
position 2, and the theorem yields the strict ordering. -/
theorem C9_invalidations_complete_before_onSuccess_witness :
    ((onSuccessHandlerTrace ["/a", "/b"] true)[0]?
        = some (MutEvent.invalidate "/a"))
    ∧ ((onSuccessHandlerTrace ["/a", "/b"] true)[2]?
        = some MutEvent.userOnSuccess)
    ∧ (0 : Nat) < 2 :=
  ⟨rfl, rfl,
    C9_invalidations_complete_before_onSuccess ["/a", "/b"] (by decide) 0 2 "/a"
      rfl rfl⟩
